import Mathlib

/-!
Verification of the `kedro-devops` data-engineering nodes.

The repository contains two pipeline nodes:

* `upper_caser` (src/kedro_devops/pipelines/data_engineering/nodes/upper_caser.py):
  `return data.applymap(lambda x: x.upper())` on a pandas DataFrame.

* `transform_uppercase`
  (src/kedro_devops/pipelines/data_engineering/nodes/transform_uppercase.py):
  `json_data = data_set.json(); pokemons = json_data.get("results");
   data = pd.json_normalize(pokemons); return data.applymap(lambda x: x.upper())`.

We embed the Python values these functions handle, the relevant behaviour of
`pandas.DataFrame.applymap`, `pandas.json_normalize` (pandas 1.x, default
arguments: `record_path=None`, `sep="."`, `max_level=None`) and
`dict.get` / `Response.json`, with Python exceptions modelled by `Except`.
-/

/-- A Python value as produced by decoding a JSON response body
(`Response.json()`): `None`, strings, numbers, lists and string-keyed
dicts.  A dict is a key-ordered association list (Python dicts preserve
insertion order). -/
inductive PyVal : Type where
  | pynone : PyVal
  | str : String → PyVal
  | int : Int → PyVal
  | list : List PyVal → PyVal
  | dict : List (String × PyVal) → PyVal

/-- A cell of a pandas DataFrame: either an ordinary Python value stored in
the cell, or the float `NaN` fill value that `DataFrame`-from-records
construction inserts for a missing field. -/
inductive Cell : Type where
  | val : PyVal → Cell
  | nan : Cell

/-- A pandas DataFrame: an ordered list of named columns, each an ordered
list of cells.  (pandas keeps all columns the same length; the claims only
ever build such tables.) -/
structure Table : Type where
  cols : List (String × List Cell)

/-- Python exceptions raised by the embedded code, plus the two abstract
error kinds named by the specification (`InvalidInputKind`,
`MalformedPayload`).  The repository's code defines no error types of its
own and never produces the two spec kinds; they are included only so that
theorems can compare the code's actual errors against the spec's taxonomy. -/
inductive PyError : Type where
  | attributeError : String → PyError
  | typeError : String → PyError
  | valueError : String → PyError
  | jsonDecodeError : PyError
  | invalidInputKind : PyError
  | malformedPayload : PyError
deriving DecidableEq

/-- Python `str.upper()` on the repository's data: the locale-independent,
codepoint-wise uppercase map applied to every character.  (`Char.toUpper`
covers the ASCII range, which is the entire alphabet used by this
repository; cells are ASCII throughout.) -/
def pyUpper (s : String) : String :=
  String.mk (s.data.map Char.toUpper)

/-- The mapped function `lambda x: x.upper()`: defined on strings, raises
`AttributeError` on every other value (ints, floats including `NaN`,
`None`, lists, dicts have no `upper` attribute). -/
def cellUpper : Cell → Except PyError Cell
  | Cell.val (PyVal.str s) => Except.ok (Cell.val (PyVal.str (pyUpper s)))
  | _ => Except.error (PyError.attributeError "upper")

/-- Apply a fallible cell function to each cell of one column in order,
stopping at the first raised exception (as Python does). -/
def mapCells (f : Cell → Except PyError Cell) : List Cell → Except PyError (List Cell)
  | [] => Except.ok []
  | c :: cs =>
      match f c with
      | Except.error e => Except.error e
      | Except.ok c' =>
          match mapCells f cs with
          | Except.error e => Except.error e
          | Except.ok cs' => Except.ok (c' :: cs')

/-- Apply a fallible cell function column by column, in column order
(`DataFrame.applymap` maps each column in turn). -/
def mapColumns (f : Cell → Except PyError Cell) :
    List (String × List Cell) → Except PyError (List (String × List Cell))
  | [] => Except.ok []
  | (n, cs) :: rest =>
      match mapCells f cs with
      | Except.error e => Except.error e
      | Except.ok cs' =>
          match mapColumns f rest with
          | Except.error e => Except.error e
          | Except.ok rest' => Except.ok ((n, cs') :: rest')

/-- `DataFrame.applymap(f)`: the element-wise map over all cells, column by
column, propagating the first exception `f` raises. -/
def applymap (f : Cell → Except PyError Cell) (t : Table) : Except PyError Table :=
  match mapColumns f t.cols with
  | Except.error e => Except.error e
  | Except.ok cols => Except.ok ⟨cols⟩

/-- `upper_caser` (upper_caser.py line 14):
`return data.applymap(lambda x: x.upper())`. -/
def upper_caser (data : Table) : Except PyError Table :=
  applymap cellUpper data

/-- Python `dict.get(k)`: the value stored at the first matching key, or
`None` when the key is absent. -/
def dictGet (d : List (String × PyVal)) (k : String) : PyVal :=
  match d.find? (fun p => p.1 == k) with
  | Option.some p => p.2
  | Option.none => PyVal.pynone

/-- Whether a Python value is a dict (`isinstance(v, dict)`). -/
def isDict : PyVal → Bool
  | PyVal.dict _ => true
  | _ => false

/-- `pandas._libs... nested_to_record` at recursion level `≥ 1` with key
prefix `pre`: every key of the record is popped and re-inserted (so keys
come out in iteration order), a non-dict value keeps its value under the
prefixed key, and a dict value is flattened recursively under the longer
prefix. -/
def flattenSub (pre : String) : List (String × PyVal) → List (String × PyVal)
  | [] => []
  | (k, PyVal.dict d) :: rest => flattenSub (pre ++ "." ++ k) d ++ flattenSub pre rest
  | (k, v) :: rest => (pre ++ "." ++ k, v) :: flattenSub pre rest

/-- `nested_to_record` on one record at level 0 (default `sep="."`,
`max_level=None`): non-dict entries stay in place, dict entries are removed
and their flattened contents are appended at the end (the code pops the key
and `update`s the flattened sub-record into the dict). -/
def flattenRecord (d : List (String × PyVal)) : List (String × PyVal) :=
  d.filter (fun p => ¬ isDict p.2) ++
    (d.filter (fun p => isDict p.2)).flatMap (fun p =>
      match p.2 with
      | PyVal.dict d2 => flattenSub p.1 d2
      | _ => [])

/-- The guard `any([isinstance(x, dict) for x in y.values()] for y in data)`
inside `json_normalize`: `any` consumes one list per element `y` of `data`
and short-circuits at the first truthy (that is, non-empty) list, so it
returns `true` at the first non-empty dict, skips empty dicts, and raises
`AttributeError` (`y.values()`) at a non-dict element reached before any
non-empty dict. -/
def anyNonemptyCheck : List PyVal → Except PyError Bool
  | [] => Except.ok false
  | PyVal.dict [] :: rest => anyNonemptyCheck rest
  | PyVal.dict (_ :: _) :: _ => Except.ok true
  | _ :: _ => Except.error (PyError.attributeError "values")

/-- `nested_to_record` over the whole record list: each element must be a
dict (otherwise `d.items()` raises `AttributeError`), and each dict is
flattened. -/
def nestedToRecord : List PyVal → Except PyError (List (List (String × PyVal)))
  | [] => Except.ok []
  | PyVal.dict d :: rest =>
      match nestedToRecord rest with
      | Except.error e => Except.error e
      | Except.ok rest' => Except.ok (flattenRecord d :: rest')
  | _ :: _ => Except.error (PyError.attributeError "items")

/-- The union of the records' keys in first-seen order (column order of a
`DataFrame` built from a list of records). -/
def addKeys (acc : List String) : List String → List String
  | [] => acc
  | k :: ks => if acc.contains k then addKeys acc ks else addKeys (acc ++ [k]) ks

/-- Column names of `DataFrame(records)`: union of field names, first-seen
order. -/
def unionKeys (records : List (List (String × PyVal))) : List String :=
  records.foldl (fun acc r => addKeys acc (r.map Prod.fst)) []

/-- The cell a record contributes to column `k`: its stored value when the
field is present, the float `NaN` fill value when it is missing. -/
def recordCell (r : List (String × PyVal)) (k : String) : Cell :=
  match r.find? (fun p => p.1 == k) with
  | Option.some p => Cell.val p.2
  | Option.none => Cell.nan

/-- `DataFrame(records)` for a list of flat records: one row per record,
one column per field name in first-seen order, `NaN` for missing fields. -/
def recordsToTable (records : List (List (String × PyVal))) : Table :=
  ⟨(unionKeys records).map (fun k => (k, records.map (fun r => recordCell r k)))⟩

/-- The record-list path of `json_normalize`: run the `any` guard; when it
finds a non-empty record, flatten all records with `nested_to_record` and
build the `DataFrame`; when every element is an empty dict, `DataFrame`
is built directly from the empty records (rows with no columns). -/
def normalizeRecords (l : List PyVal) : Except PyError Table :=
  match anyNonemptyCheck l with
  | Except.error e => Except.error e
  | Except.ok true =>
      match nestedToRecord l with
      | Except.error e => Except.error e
      | Except.ok recs => Except.ok (recordsToTable recs)
  | Except.ok false => Except.ok (recordsToTable (l.map (fun _ => [])))

/-- `pandas.json_normalize(data)` with default arguments (pandas 1.x):
an empty list gives the empty `DataFrame()`; a dict is wrapped into a
one-element record list; a non-empty list goes through the record path; a
non-empty string raises `AttributeError` (its characters lack `.values`),
the empty string reaches the `DataFrame` constructor which raises
`ValueError`; `None` and numbers raise `TypeError` (not iterable). -/
def json_normalize (v : PyVal) : Except PyError Table :=
  match v with
  | PyVal.list [] => Except.ok ⟨[]⟩
  | PyVal.dict d => normalizeRecords [PyVal.dict d]
  | PyVal.list l => normalizeRecords l
  | PyVal.str s =>
      if s.isEmpty then Except.error (PyError.valueError "DataFrame constructor not properly called")
      else Except.error (PyError.attributeError "values")
  | _ => Except.error (PyError.typeError "object is not iterable")

/-- A Python value handed to one of the two pipeline nodes: a pandas
DataFrame, a `requests.Response` (characterised by what its `.json()`
returns — `Option.none` models a body that is not valid JSON, so `.json()`
raises `JSONDecodeError`), or any other plain Python value. -/
inductive PyInput : Type where
  | dataframe : Table → PyInput
  | response : Option PyVal → PyInput
  | pyval : PyVal → PyInput

/-- `transform_uppercase` (transform_uppercase.py lines 15-18):
`json_data = data_set.json()`, `pokemons = json_data.get("results")`,
`data = pd.json_normalize(pokemons)`,
`return data.applymap(lambda x: x.upper())`.
Since the function is dispatched by duck typing, a non-`Response` argument
fails at `data_set.json()` with `AttributeError`, and a decoded body that
is not a dict fails at `.get` with `AttributeError`. -/
def transform_uppercase (data_set : PyInput) : Except PyError Table :=
  match data_set with
  | PyInput.response (Option.some (PyVal.dict json_data)) =>
      match json_normalize (dictGet json_data "results") with
      | Except.error e => Except.error e
      | Except.ok data => applymap cellUpper data
  | PyInput.response (Option.some _) => Except.error (PyError.attributeError "get")
  | PyInput.response Option.none => Except.error PyError.jsonDecodeError
  | _ => Except.error (PyError.attributeError "json")

/-- `upper_caser` under duck typing: applied to anything that is not a
DataFrame, `data.applymap` raises `AttributeError`. -/
def upper_caser_duck : PyInput → Except PyError Table
  | PyInput.dataframe data => upper_caser data
  | _ => Except.error (PyError.attributeError "applymap")

/-- The element-wise cell transform as a total function: a text cell is
replaced by its uppercase, any other cell is kept.  This is the
specification's description of the per-cell behaviour; theorems compare
the code's `applymap cellUpper` against it. -/
def cellUpperTotal : Cell → Cell
  | Cell.val (PyVal.str s) => Cell.val (PyVal.str (pyUpper s))
  | c => c

/-- The table `{"names": ["juan", "manuel", "alberto"]}` of the repository's
basic test scenario. -/
def namesTable : Table :=
  ⟨[("names", [Cell.val (PyVal.str "juan"), Cell.val (PyVal.str "manuel"),
      Cell.val (PyVal.str "alberto")])]⟩

/-- The table `{"names": ["JUAN", "MANUEL", "ALBERTO"]}`: the expected
output of `upper_caser` on `namesTable`, and a table whose text cells are
already upper-cased. -/
def upperNamesTable : Table :=
  ⟨[("names", [Cell.val (PyVal.str "JUAN"), Cell.val (PyVal.str "MANUEL"),
      Cell.val (PyVal.str "ALBERTO")])]⟩

/-- The table `{"numbers": [1, 2, 3]}` of the repository's mixed-type test
scenario (`TestUpperCaser.should_not_upper_case_number_data`). -/
def numbersTable : Table :=
  ⟨[("numbers", [Cell.val (PyVal.int 1), Cell.val (PyVal.int 2),
      Cell.val (PyVal.int 3)])]⟩

/-- The mocked response of `TestTransformUppercase.test_transform_string`:
`.json()` returns
`{"results": [{"data": "test1"}, {"data": "test2"}, {"data": "test3"}]}`. -/
def pokemonPayload : PyInput :=
  PyInput.response (Option.some (PyVal.dict
    [("results", PyVal.list
      [PyVal.dict [("data", PyVal.str "test1")],
       PyVal.dict [("data", PyVal.str "test2")],
       PyVal.dict [("data", PyVal.str "test3")]])]))

/-- A `results` sequence of flat records with heterogeneous field sets:
`[{"a": "x"}, {"b": "y"}]`. -/
def sparseResults : PyVal :=
  PyVal.list [PyVal.dict [("a", PyVal.str "x")], PyVal.dict [("b", PyVal.str "y")]]

/-- A payload whose decoded body has a `results` field holding a single
flat record rather than a sequence: `{"results": {"a": "x"}}`. -/
def singleRecordPayload : PyInput :=
  PyInput.response (Option.some (PyVal.dict
    [("results", PyVal.dict [("a", PyVal.str "x")])]))

/-- Two tables are equal when their column lists are. -/
theorem Table.eq_of_cols {a b : Table} (h : a.cols = b.cols) : a = b := by
  cases a; cases b; simpa using h

/-- When `lambda x: x.upper()` returns normally on a cell, its value is the
total element transform of that cell (only text cells return normally). -/
theorem cellUpper_ok {c c' : Cell} (h : cellUpper c = Except.ok c') : c' = cellUpperTotal c := by
  cases c with
  | nan => simp [cellUpper] at h
  | val v =>
      cases v with
      | str s => simp [cellUpper, cellUpperTotal] at h ⊢; exact h.symm
      | pynone => simp [cellUpper] at h
      | int n => simp [cellUpper] at h
      | list l => simp [cellUpper] at h
      | dict d => simp [cellUpper] at h

/-- A column that maps without an exception is mapped element-wise. -/
theorem mapCells_ok {cs cs' : List Cell} (h : mapCells cellUpper cs = Except.ok cs') :
    cs' = cs.map cellUpperTotal := by
  induction cs generalizing cs' with
  | nil => rw [mapCells] at h; cases h; rfl
  | cons c cs ih =>
      rw [mapCells] at h
      cases hc : cellUpper c with
      | error e => rw [hc] at h; cases h
      | ok c1 =>
          rw [hc] at h
          cases hrest : mapCells cellUpper cs with
          | error e => rw [hrest] at h; cases h
          | ok cs1 =>
              rw [hrest] at h
              cases h
              rw [List.map_cons, cellUpper_ok hc, ih hrest]

/-- A column list that maps without an exception keeps every column name
and maps every column element-wise. -/
theorem mapColumns_ok {cols cols' : List (String × List Cell)}
    (h : mapColumns cellUpper cols = Except.ok cols') :
    cols' = cols.map (fun col => (col.1, col.2.map cellUpperTotal)) := by
  induction cols generalizing cols' with
  | nil => rw [mapColumns] at h; cases h; rfl
  | cons col rest ih =>
      obtain ⟨n, cs⟩ := col
      rw [mapColumns] at h
      cases hc : mapCells cellUpper cs with
      | error e => rw [hc] at h; cases h
      | ok cs1 =>
          rw [hc] at h
          cases hrest : mapColumns cellUpper rest with
          | error e => rw [hrest] at h; cases h
          | ok rest1 =>
              rw [hrest] at h
              cases h
              rw [List.map_cons, mapCells_ok hc, ih hrest]

/-- When `upper_caser` returns normally, its output columns are exactly the
input columns with every cell sent through the total element transform. -/
theorem upper_caser_ok_eq {T T' : Table} (h : upper_caser T = Except.ok T') :
    T'.cols = T.cols.map (fun col => (col.1, col.2.map cellUpperTotal)) := by
  rw [upper_caser, applymap] at h
  cases hc : mapColumns cellUpper T.cols with
  | error e => rw [hc] at h; cases h
  | ok cols => rw [hc] at h; cases h; exact mapColumns_ok hc

/-- C1: for every input table on which the transform returns normally, the
output columns are the element-wise image of the input columns, where a
cell holding text becomes the codepoint-wise upper-case mapping of that
text and the column names are kept; in particular the transform is a pure
element-wise map over cells. -/
theorem upper_caser_text_cells {T T' : Table} (h : upper_caser T = Except.ok T') :
    T'.cols = T.cols.map (fun col => (col.1, col.2.map cellUpperTotal)) ∧
    ∀ s : String, cellUpperTotal (Cell.val (PyVal.str s)) = Cell.val (PyVal.str (pyUpper s)) :=
  ⟨upper_caser_ok_eq h, fun _ => rfl⟩

/-- Witness for C1: the basic scenario `{"names": ["juan", "manuel",
"alberto"]}`, on which `upper_caser` returns
`{"names": ["JUAN", "MANUEL", "ALBERTO"]}`. -/
theorem upper_caser_text_cells_witness :
    upperNamesTable.cols = namesTable.cols.map (fun col => (col.1, col.2.map cellUpperTotal)) ∧
    ∀ s : String, cellUpperTotal (Cell.val (PyVal.str s)) = Cell.val (PyVal.str (pyUpper s)) :=
  upper_caser_text_cells (rfl : upper_caser namesTable = Except.ok upperNamesTable)

/-- C2: contrary to the claim (and to the repository's own test
`should_not_upper_case_number_data`, which asserts that the table comes
back unchanged), `upper_caser` on the all-integer table
`{"numbers": [1, 2, 3]}` raises `AttributeError` — `lambda x: x.upper()`
is applied to every cell and `int` has no attribute `upper`.  The test is
never collected by pytest (its methods are not named `test_*`), so the
contradiction goes unnoticed. -/
theorem upper_caser_numbers_raises :
    upper_caser numbersTable = Except.error (PyError.attributeError "upper") ∧
    upper_caser numbersTable ≠ Except.ok numbersTable :=
  ⟨rfl, fun hc => nomatch hc⟩

/-- C3: on every input table on which the transform returns normally, the
output has the same column names in the same order and the same per-column
row counts (and, the map being positional, the same row order). -/
theorem upper_caser_preserves_shape {T T' : Table} (h : upper_caser T = Except.ok T') :
    T'.cols.map Prod.fst = T.cols.map Prod.fst ∧
    T'.cols.map (fun col => col.2.length) = T.cols.map (fun col => col.2.length) := by
  have e := upper_caser_ok_eq h
  constructor
  · rw [e, List.map_map]
    apply List.map_congr_left
    intro col hcol
    rfl
  · rw [e, List.map_map]
    apply List.map_congr_left
    intro col hcol
    simp

/-- Witness for C3: the basic scenario table. -/
theorem upper_caser_preserves_shape_witness :
    upperNamesTable.cols.map Prod.fst = namesTable.cols.map Prod.fst ∧
    upperNamesTable.cols.map (fun col => col.2.length)
      = namesTable.cols.map (fun col => col.2.length) :=
  upper_caser_preserves_shape (rfl : upper_caser namesTable = Except.ok upperNamesTable)

/-- C4: on the payload whose decoded body is
`{"results": [{"data": "test1"}, {"data": "test2"}, {"data": "test3"}]}`,
`transform_uppercase` returns the one-column table
`{"data": ["TEST1", "TEST2", "TEST3"]}`. -/
theorem transform_uppercase_adapter :
    transform_uppercase pokemonPayload
      = Except.ok ⟨[("data", [Cell.val (PyVal.str "TEST1"), Cell.val (PyVal.str "TEST2"),
          Cell.val (PyVal.str "TEST3")])]⟩ :=
  rfl

/-- C5 counterexample: the claim also asserts failure whenever `results`
is present but is not a sequence of flat records.  On the payload
`{"results": {"a": "x"}}` — `results` a single flat record, not a
sequence — `pandas.json_normalize` wraps the dict into a one-element
record list and `transform_uppercase` succeeds with the one-row table
`{"a": ["X"]}`, failing with no error at all. -/
theorem transform_uppercase_single_record_succeeds :
    transform_uppercase singleRecordPayload
      = Except.ok ⟨[("a", [Cell.val (PyVal.str "X")])]⟩ ∧
    ∀ e : PyError, transform_uppercase singleRecordPayload ≠ Except.error e :=
  ⟨rfl, fun _ hc => nomatch hc⟩

/-- C5 as amended: on a payload whose decoded body is a dict without a
`results` key, `dict.get` yields `None` and `pandas.json_normalize(None)`
raises `TypeError` (`'NoneType' object is not iterable`) — a plain Python
exception, there is no dedicated `MalformedPayload` error kind; likewise
a non-iterable `results` such as a number raises `TypeError`. -/
theorem transform_uppercase_missing_results (d : List (String × PyVal)) (n : Int)
    (h : dictGet d "results" = PyVal.pynone) :
    transform_uppercase (PyInput.response (Option.some (PyVal.dict d)))
      = Except.error (PyError.typeError "object is not iterable") ∧
    transform_uppercase (PyInput.response (Option.some (PyVal.dict [("results", PyVal.int n)])))
      = Except.error (PyError.typeError "object is not iterable") := by
  constructor
  · simp only [transform_uppercase]
    rw [h]
    rfl
  · rfl

/-- Witness for the amended C5: the empty decoded body `{}` and the
numeric `results` value `5`. -/
theorem transform_uppercase_missing_results_witness :
    transform_uppercase (PyInput.response (Option.some (PyVal.dict [])))
      = Except.error (PyError.typeError "object is not iterable") ∧
    transform_uppercase (PyInput.response (Option.some (PyVal.dict [("results", PyVal.int 5)])))
      = Except.error (PyError.typeError "object is not iterable") :=
  transform_uppercase_missing_results [] 5 rfl

/-- C6 counterexample: on the integer input `5` — neither a table nor a
payload — both nodes fail with `AttributeError` from duck-typed attribute
lookup (`5 .json` respectively `5 .applymap`), which is not the dedicated
`InvalidInputKind` error kind the claim requires; the code defines no such
kind. -/
theorem transform_invalid_input_attribute_error :
    transform_uppercase (PyInput.pyval (PyVal.int 5))
      = Except.error (PyError.attributeError "json") ∧
    upper_caser_duck (PyInput.pyval (PyVal.int 5))
      = Except.error (PyError.attributeError "applymap") ∧
    PyError.attributeError "json" ≠ PyError.invalidInputKind ∧
    PyError.attributeError "applymap" ≠ PyError.invalidInputKind :=
  ⟨rfl, rfl, by decide, by decide⟩

/-- C6 as amended: every plain Python value fails in `transform_uppercase`
with `AttributeError` on the missing `json` attribute and in `upper_caser`
with `AttributeError` on the missing `applymap` attribute; a response also
fails in `upper_caser` with the `applymap` `AttributeError`, and a response
whose body is not decodable JSON fails in `transform_uppercase` with
`JSONDecodeError`.  No `InvalidInputKind` error kind exists anywhere. -/
theorem transform_duck_typing_errors (v : PyVal) (b : Option PyVal) :
    transform_uppercase (PyInput.pyval v) = Except.error (PyError.attributeError "json") ∧
    upper_caser_duck (PyInput.pyval v) = Except.error (PyError.attributeError "applymap") ∧
    upper_caser_duck (PyInput.response b) = Except.error (PyError.attributeError "applymap") ∧
    transform_uppercase (PyInput.response Option.none) = Except.error PyError.jsonDecodeError :=
  ⟨rfl, rfl, rfl, rfl⟩

/-- C7: for every table whose text cells are already upper-cased (each
cell is a fixed point of the element transform), applying the transform
twice equals applying it once — on success the output equals the input,
and a raised exception propagates unchanged through the second
application. -/
theorem upper_caser_idempotent {T : Table}
    (h : ∀ col ∈ T.cols, ∀ c ∈ col.2, cellUpperTotal c = c) :
    Except.bind (upper_caser T) upper_caser = upper_caser T := by
  cases hT : upper_caser T with
  | error e => rfl
  | ok T' =>
      have hcols := upper_caser_ok_eq hT
      have hTT : T' = T := by
        apply Table.eq_of_cols
        rw [hcols]
        conv_rhs => rw [← List.map_id T.cols]
        apply List.map_congr_left
        intro col hcol
        have h2 : col.2.map cellUpperTotal = col.2 := by
          rw [List.map_congr_left (fun c hc => h col hcol c hc)]
          simp
        simp [h2]
      subst hTT
      exact hT

/-- Witness for C7: the already upper-cased table
`{"names": ["JUAN", "MANUEL", "ALBERTO"]}`. -/
theorem upper_caser_idempotent_witness :
    Except.bind (upper_caser upperNamesTable) upper_caser = upper_caser upperNamesTable :=
  upper_caser_idempotent (by
    intro col hcol c hc
    simp only [upperNamesTable, List.mem_singleton] at hcol
    subst hcol
    fin_cases hc <;> rfl)

/-- C9: contrary to the claim, a `results` sequence of flat records with
heterogeneous field sets does not make the transform succeed.  The
normalization itself behaves as the claim says — on
`[{"a": "x"}, {"b": "y"}]` it produces the two-column table with the union
of field names in first-seen order and the `NaN` fill value for each
missing field — but `applymap(lambda x: x.upper())` is then applied to the
`NaN` cells and raises `AttributeError` (`float` has no attribute
`upper`). -/
theorem transform_uppercase_sparse_records_raise :
    json_normalize sparseResults
      = Except.ok ⟨[("a", [Cell.val (PyVal.str "x"), Cell.nan]),
                    ("b", [Cell.nan, Cell.val (PyVal.str "y")])]⟩ ∧
    transform_uppercase (PyInput.response (Option.some (PyVal.dict [("results", sparseResults)])))
      = Except.error (PyError.attributeError "upper") :=
  ⟨rfl, rfl⟩

/-- C10: every payload whose decoded body binds `results` to the empty
sequence yields the empty table (zero columns, zero rows):
`json_normalize([])` returns the empty `DataFrame()` and `applymap` on it
maps nothing. -/
theorem transform_uppercase_empty_results (d : List (String × PyVal))
    (h : dictGet d "results" = PyVal.list []) :
    transform_uppercase (PyInput.response (Option.some (PyVal.dict d))) = Except.ok ⟨[]⟩ := by
  simp only [transform_uppercase]
  rw [h]
  rfl

/-- Witness for C10: the decoded body `{"results": []}`. -/
theorem transform_uppercase_empty_results_witness :
    transform_uppercase (PyInput.response (Option.some (PyVal.dict [("results", PyVal.list [])])))
      = Except.ok ⟨[]⟩ :=
  transform_uppercase_empty_results [("results", PyVal.list [])] rfl
